import Mathlib

/-!
Shallow embedding of `scripts/api.py` from the sd-webui-controlnet repository.

The module under verification is integration glue between a FastAPI web
application and an external ControlNet script: request-schema translation,
a backward-compatibility shim for deprecated flat request fields, assembly of
a script-argument list, and HTTP route wiring.  External collaborators
(PIL image decoding, base64, the annotator neural networks, the diffusion
pipeline) are modelled as abstract functions gathered in an `Env` record;
Python exceptions are modelled with `Except PyErr`.
-/

namespace ControlNetApi

/-- A numpy array, abstracted as a shape together with flattened contents. -/
structure NpArray where
  shape : List Nat
  data : List Nat
deriving DecidableEq

/-- A PIL image, abstracted as the pixel array that `np.array` extracts from it. -/
structure PILImage where
  toNp : NpArray
deriving DecidableEq

/-- `.astype('uint8')`: every entry reduced mod 256. -/
def astype_uint8 (a : NpArray) : NpArray :=
  ⟨a.shape, a.data.map (fun x => x % 256)⟩

/-- `np.zeros(shape)` (entries are 0 before and after the uint8 cast). -/
def np_zeros (shape : List Nat) : NpArray :=
  ⟨shape, List.replicate (shape.foldr (fun a b => a * b) 1) 0⟩

/-- `np.array(0).reshape((1, 1, 1))`: the 1x1x1 zero array used as a placeholder mask. -/
def np_zero_1x1x1 : NpArray := ⟨[1, 1, 1], [0]⟩

/-- Python exceptions that the embedded code can raise. -/
inductive PyErr where
  /-- `fastapi.HTTPException(status_code, detail)`. -/
  | httpException (status : Nat) (detail : String)
  /-- `IndexError` from subscripting a too-short list. -/
  | indexError
  /-- An uncaught library error from `base64.b64decode` / `Image.open`. -/
  | imageOpenError
deriving DecidableEq

/-- The external collaborators of `scripts/api.py`, out of scope of the module:
`Image.open(io.BytesIO(base64.b64decode s))` (`none` when decoding or opening
raises), base64 image encoding, the annotator functions imported from
`scripts.processor`, and `np.pi`. -/
structure Env where
  open_b64 : String → Option PILImage
  encode_np : NpArray → String
  canny : NpArray → Int → ℚ → ℚ → NpArray
  hed : NpArray → Int → NpArray
  mlsd : NpArray → Int → ℚ → ℚ → NpArray
  midas : NpArray → Int → ℚ → NpArray
  midas_normal : NpArray → Int → ℚ → ℚ → NpArray
  leres : NpArray → Int → ℚ → ℚ → ℚ → NpArray
  openpose : NpArray → Int → Bool → NpArray
  fake_scribble : NpArray → Int → NpArray
  uniformer : NpArray → Int → NpArray
  np_pi : ℚ

/-- Python's `str.startswith`, on character lists. -/
def starts_with_chars : List Char → List Char → Bool
  | _, [] => true
  | [], _ :: _ => false
  | c :: cs, p :: ps => c = p && starts_with_chars cs ps

/-- Python's `str.startswith` on strings. -/
def py_startswith (s pre : String) : Bool :=
  starts_with_chars s.data pre.data

/-- Python's `str.split` with a one-character separator: the segments
between occurrences of `sep`, empty segments included. -/
def py_split_char (sep : Char) : List Char → List (List Char)
  | [] => [[]]
  | c :: cs =>
    let rest := py_split_char sep cs
    if c = sep then [] :: rest
    else
      match rest with
      | r :: rs => (c :: r) :: rs
      | [] => [[c]]

/-- `encoding.split(";")[1].split(",")[1]` (line 37).  Both subscripts can
raise `IndexError`, and they run outside the `try` block. -/
def strip_data_header (s : String) : Except PyErr String :=
  match (py_split_char ';' s.data).get? 1 with
  | none => .error .indexError
  | some t =>
    match (py_split_char ',' t).get? 1 with
    | none => .error .indexError
    | some r => .ok ⟨r⟩

/-- The string actually handed to `base64.b64decode` by
`decode_base64_to_image`: the input itself, unless it starts with
`data:image/`, in which case the header is stripped (lines 36-37). -/
def effective_encoding (s : String) : Except PyErr String :=
  if py_startswith s "data:image/" then strip_data_header s else .ok s

/-- `decode_base64_to_image` (lines 35-42): strip a data-URI header when
present, then try to decode and open; any failure inside the `try` becomes
`HTTPException(500, "Invalid encoded image")`. -/
def decode_base64_to_image (env : Env) (encoding : String) : Except PyErr PILImage := do
  let enc ← effective_encoding encoding
  match env.open_b64 enc with
  | some image => .ok image
  | none => .error (.httpException 500 "Invalid encoded image")

/-- `to_base64_nparray` (lines 32-33): `np.array(decode_base64_to_image(encoding)).astype('uint8')`. -/
def to_base64_nparray (env : Env) (encoding : String) : Except PyErr NpArray := do
  let image ← decode_base64_to_image env encoding
  .ok (astype_uint8 image.toNp)

/-- `ControlNetUnitRequest` (lines 119-131); the field defaults are the ones
declared in the `cn_fields` dictionary (lines 88-101). -/
structure ControlNetUnitRequest where
  input_image : String := ""
  mask : String := ""
  module : String := "none"
  model : String := "None"
  weight : ℚ := 1
  resize_mode : String := "Scale to Fit (Inner Fit)"
  lowvram : Bool := false
  processor_res : Int := 64
  threshold_a : ℚ := 64
  threshold_b : ℚ := 64
  guidance : ℚ := 1
  guessmode : Bool := true
deriving DecidableEq

/-- The twelve deprecated flat `controlnet_*` fields of
`StableDiffusionTxt2ImgControlNetProcessingAPI` (lines 148-159); each is
`Optional` with default `None`. -/
structure DeprecatedCnFields where
  input_image : Option (List String) := none
  mask : Option (List String) := none
  module : Option String := none
  model : Option String := none
  weight : Option ℚ := none
  resize_mode : Option String := none
  lowvram : Option Bool := none
  processor_res : Option Int := none
  threshold_a : Option ℚ := none
  threshold_b : Option ℚ := none
  guidance : Option ℚ := none
  guessmode : Option Bool := none
deriving DecidableEq

/-- A txt2img request: the fields inherited from the host application's model
(kept abstract as `base`), plus `controlnet_units` and the deprecated flat
fields (lines 134-159). -/
structure Txt2ImgRequest (β : Type) where
  base : β
  controlnet_units : List ControlNetUnitRequest
  deprecated : DeprecatedCnFields
deriving DecidableEq

/-- The request after `txt2imgreq.copy(exclude=deprecated_cn_fields.keys())`
(line 207): the deprecated flat fields are gone, everything else remains. -/
structure NestedTxt2ImgRequest (β : Type) where
  base : β
  controlnet_units : List ControlNetUnitRequest
deriving DecidableEq

/-- The heterogeneous default values stored in `cn_fields` /
`get_deprecated_field_default`. -/
inductive CnDefault where
  | strList (xs : List String)
  | str (s : String)
  | rat (x : ℚ)
  | int (n : Int)
  | bool (b : Bool)
deriving DecidableEq

/-- `get_deprecated_field_default` (lines 113-116): `[]` for `input_image` and
`mask`, the `cn_fields` default otherwise. -/
def get_deprecated_field_default (field_name : String) : CnDefault :=
  if field_name = "input_image" ∨ field_name = "mask" then .strList []
  else if field_name = "module" then .str "none"
  else if field_name = "model" then .str "None"
  else if field_name = "weight" then .rat 1
  else if field_name = "resize_mode" then .str "Scale to Fit (Inner Fit)"
  else if field_name = "lowvram" then .bool false
  else if field_name = "processor_res" then .int 64
  else if field_name = "threshold_a" then .rat 64
  else if field_name = "threshold_b" then .rat 64
  else if field_name = "guidance" then .rat 1
  else .bool true

/-- Python truthiness of a `CnDefault`, as tested by
`if get_deprecated_field_default(k)` on line 217. -/
def py_truthy : CnDefault → Bool
  | .strList xs => !xs.isEmpty
  | .str s => !(s == "")
  | .rat x => !(x == 0)
  | .int n => !(n == 0)
  | .bool b => b

/-- `all(map(lambda v: v is None, deprecated_cn_fields.values()))` (line 208). -/
def all_deprecated_none (d : DeprecatedCnFields) : Bool :=
  d.input_image.isNone && d.mask.isNone && d.module.isNone && d.model.isNone &&
  d.weight.isNone && d.resize_mode.isNone && d.lowvram.isNone &&
  d.processor_res.isNone && d.threshold_a.isNone && d.threshold_b.isNone &&
  d.guidance.isNone && d.guessmode.isNone

/-- `nest_deprecated_cn_fields` (lines 203-220).  The deprecated flat fields
are removed from the request; when at least one of them was set, a
`ControlNetUnitRequest` is built from them (`None` fields replaced by
`get_deprecated_field_default`) and inserted at position 0 of
`controlnet_units`.  Line 217 collapses the `input_image`/`mask` lists with
`lst[0] if get_deprecated_field_default(k) else ""`, whose condition is the
constant `[]` and hence always falsy, so both collapse to `""`. -/
def nest_deprecated_cn_fields {β : Type} (req : Txt2ImgRequest β) :
    NestedTxt2ImgRequest β :=
  if all_deprecated_none req.deprecated then ⟨req.base, req.controlnet_units⟩
  else
    let d := req.deprecated
    let input_image_list : List String := d.input_image.getD []
    let mask_list : List String := d.mask.getD []
    let input_image : String :=
      if py_truthy (get_deprecated_field_default "input_image") then
        input_image_list.headD "" else ""
    let mask : String :=
      if py_truthy (get_deprecated_field_default "mask") then
        mask_list.headD "" else ""
    let unit : ControlNetUnitRequest :=
      ⟨input_image, mask, d.module.getD "none", d.model.getD "None",
        d.weight.getD 1, d.resize_mode.getD "Scale to Fit (Inner Fit)",
        d.lowvram.getD false, d.processor_res.getD 64, d.threshold_a.getD 64,
        d.threshold_b.getD 64, d.guidance.getD 1, d.guessmode.getD true⟩
    ⟨req.base, unit :: req.controlnet_units⟩

/-- One element of the script-argument list assembled for the ControlNet
script; Python's heterogeneous tuple entries become constructors. -/
inductive Arg where
  | bool (b : Bool)
  | str (s : String)
  | rat (x : ℚ)
  | int (n : Int)
  /-- The `{"image": ..., "mask": ...}` dictionary (lines 249-252); `image`
  is `None` when no input image was supplied. -/
  | imageDict (image : Option NpArray) (mask : NpArray)
deriving DecidableEq

/-- `create_processing_unit_args` (lines 243-262): the fourteen per-unit
script arguments.  The image entry is decoded only when `input_image` is a
non-empty (truthy) string, the mask entry falls back to
`np.array(0).reshape((1, 1, 1))` when `mask` is empty; decoding failures
propagate as exceptions. -/
def create_processing_unit_args (env : Env) (u : ControlNetUnitRequest) :
    Except PyErr (List Arg) := do
  let image : Option NpArray ← (
    if u.input_image ≠ "" then
      (to_base64_nparray env u.input_image) >>= fun a => .ok (some a)
    else .ok none)
  let mask : NpArray ← (
    if u.mask ≠ "" then to_base64_nparray env u.mask
    else .ok np_zero_1x1x1)
  .ok [Arg.bool true, Arg.str u.module, Arg.str u.model, Arg.rat u.weight,
    Arg.imageDict image mask, Arg.bool false, Arg.str u.resize_mode,
    Arg.bool false, Arg.bool u.lowvram, Arg.int u.processor_res,
    Arg.rat u.threshold_a, Arg.rat u.threshold_b, Arg.rat u.guidance,
    Arg.bool u.guessmode]

/-- A script held by a script runner: its (lowercased-on-demand) title and
its `args_from` / `args_to` slice bounds. -/
structure Script where
  title : String
  args_from : Nat
  args_to : Nat
deriving DecidableEq

/-- Scripts are mutable Python objects; they live in a store indexed by
object identity, so that attribute mutation and `copy.copy` are observable. -/
def ScriptStore : Type := Nat → Script

/-- A script runner, holding the identities of its `alwayson_scripts`. -/
structure ScriptRunner where
  alwayson_scripts : List Nat
deriving DecidableEq

/-- Python's `list.index`, returning `none` where Python raises `ValueError`
(line 232). -/
def py_list_index (x : String) : List String → Option Nat
  | [] => none
  | y :: ys => if y = x then some 0 else (py_list_index x ys).map (fun i => i + 1)

/-- The loop of lines 228-229: concatenate each unit's fourteen arguments in
input order. -/
def build_punit_args (env : Env) : List ControlNetUnitRequest → Except PyErr (List Arg)
  | [] => .ok []
  | u :: rest => do
    let a ← create_processing_unit_args env u
    let tail ← build_punit_args env rest
    .ok (a ++ tail)

/-- `str.lower` on an ASCII character. -/
def ascii_lower_char (c : Char) : Char :=
  if 65 <= c.toNat ∧ c.toNat <= 90 then Char.ofNat (c.toNat + 32) else c

/-- Python's `str.lower` (script titles are ASCII). -/
def py_lower (s : String) : String := ⟨s.data.map ascii_lower_char⟩

/-- The titles of the runner's alwayson scripts, lowercased (line 231). -/
def script_titles (store : ScriptStore) (script_runner : ScriptRunner) : List String :=
  script_runner.alwayson_scripts.map (fun i => py_lower (store i).title)

/-- `create_cn_script_runner` (lines 223-241).  `fresh` is the identity of
the script object created by `copy.copy` on line 233.  The argument list
`[False] ++ per-unit args` is built first; then the `'controlnet'` script is
looked up by title — a failed lookup is the `ValueError` caught on line 239,
yielding `(None, [])`.  On success the fresh copy gets `args_from = 0`,
`args_to = len(args)`, and the returned runner (itself a `copy.copy`) holds
just that copy; the caller's store entries are untouched. -/
def create_cn_script_runner (env : Env) (store : ScriptStore) (fresh : Nat)
    (script_runner : ScriptRunner)
    (control_unit_requests : List ControlNetUnitRequest) :
    Except PyErr (ScriptStore × Option ScriptRunner × List Arg) := do
  let rest ← build_punit_args env control_unit_requests
  let cn_punit_args := Arg.bool false :: rest
  match py_list_index "controlnet" (script_titles store script_runner) with
  | none => .ok (store, none, [])
  | some cn_script_id =>
    let orig := store (script_runner.alwayson_scripts.getD cn_script_id 0)
    let cn_script : Script := ⟨orig.title, 0, cn_punit_args.length⟩
    let store2 : ScriptStore := fun i => if i = fresh then cn_script else store i
    .ok (store2, some ⟨[fresh]⟩, cn_punit_args)

/-- The ControlNet-image handling of the `img2img` endpoint (lines 346-353):
`controlnet_input_image[0]` is decoded without any bounds check or `try`
(so an empty list raises `IndexError` and a bad encoding propagates a library
error), and the ControlNet mask falls back to `np.zeros((512, 512, 3))` when
`controlnet_mask == []`. -/
def img2img_cn_arrays (env : Env)
    (controlnet_input_image controlnet_mask : List String) :
    Except PyErr (NpArray × NpArray) := do
  let s ← match controlnet_input_image.get? 0 with
    | some s => Except.ok s
    | none => Except.error PyErr.indexError
  let cn_image ← match env.open_b64 s with
    | some i => Except.ok i
    | none => Except.error PyErr.imageOpenError
  let cn_image_np := astype_uint8 cn_image.toNp
  let cn_mask_np ← (
    if controlnet_mask = [] then
      Except.ok (astype_uint8 (np_zeros [512, 512, 3]))
    else do
      let t ← match controlnet_mask.get? 0 with
        | some t => Except.ok t
        | none => Except.error PyErr.indexError
      match env.open_b64 t with
      | some i => Except.ok (astype_uint8 i.toNp)
      | none => Except.error PyErr.imageOpenError)
  .ok (cn_image_np, cn_mask_np)

/-- Observable side effects of the embedded endpoints: annotator
invocations, annotator-model unloads, and invocations of the generation
pipeline `process_images`. -/
inductive Effect where
  | annotatorCall (module : String)
  | unloadCall (name : String)
  | processImagesCall
deriving DecidableEq

/-- The response of the `detect` endpoint together with the effects the
handler performed. -/
structure DetectResult where
  images : List String
  info : String
  effects : List Effect
deriving DecidableEq

/-- `available_modules` (lines 411-419). -/
def available_modules : List String :=
  ["canny", "depth", "depth_leres", "fake_scribble", "hed", "mlsd",
   "normal_map", "openpose", "segmentation"]

/-- The per-image decoding of the detect loop (line 431):
`np.array(Image.open(io.BytesIO(base64.b64decode(input_image)))).astype('uint8')`,
with no `try`, so a failure propagates a library error. -/
def detect_decode (env : Env) (s : String) : Except PyErr NpArray :=
  match env.open_b64 s with
  | some image => .ok (astype_uint8 image.toNp)
  | none => .error .imageOpenError

/-- The `if/elif` chain of the detect loop body (lines 433-450), in source
order; `none` when no branch matches and nothing is appended. -/
def detect_apply (env : Env) (m : String) (img : NpArray) (res : Int)
    (ta tb : ℚ) : Option NpArray :=
  if m = "canny" then some (env.canny img res ta tb)
  else if m = "hed" then some (env.hed img res)
  else if m = "mlsd" then some (env.mlsd img res ta tb)
  else if m = "depth" then some (env.midas img res (env.np_pi * 2))
  else if m = "normal_map" then some (env.midas_normal img res (env.np_pi * 2) ta)
  else if m = "depth_leres" then some (env.leres img res (env.np_pi * 2) ta tb)
  else if m = "openpose" then some (env.openpose img res false)
  else if m = "fake_scribble" then some (env.fake_scribble img res)
  else if m = "segmentation" then some (env.uniformer img res)
  else none

/-- The detect loop (lines 428-450): decode each input in order and append
the matching annotator's output, if any branch matches. -/
def detect_loop (env : Env) (m : String) (res : Int) (ta tb : ℚ) :
    List String → Except PyErr (List NpArray)
  | [] => .ok []
  | s :: rest => do
    let img ← detect_decode env s
    let tail ← detect_loop env m res ta tb rest
    match detect_apply env m img res ta tb with
    | some r => .ok (r :: tail)
    | none => .ok tail

/-- The module-specific unload calls after the loop (lines 452-463). -/
def unload_effects (m : String) : List Effect :=
  if m = "hed" then [.unloadCall "hed"]
  else if m = "mlsd" then [.unloadCall "mlsd"]
  else if m = "depth" ∨ m = "normal_map" then [.unloadCall "midas"]
  else if m = "depth_leres" then [.unloadCall "leres"]
  else if m = "openpose" then [.unloadCall "openpose"]
  else if m = "segmentation" then [.unloadCall "uniformer"]
  else []

/-- The `detect` endpoint (lines 402-466): reject unknown modules and empty
input lists, otherwise run the annotator loop, unload the module's models,
and return the base64-encoded results with info `"Success"`.  The handler
performs one annotator call per appended result and never calls
`process_images`. -/
def detect (env : Env) (controlnet_module : String)
    (controlnet_input_images : List String) (controlnet_processor_res : Int)
    (controlnet_threshold_a controlnet_threshold_b : ℚ) :
    Except PyErr DetectResult :=
  if controlnet_module ∉ available_modules then
    .ok ⟨[], "Module not available", []⟩
  else if controlnet_input_images.length = 0 then
    .ok ⟨[], "No image selected", []⟩
  else do
    let results ← detect_loop env controlnet_module controlnet_processor_res
      controlnet_threshold_a controlnet_threshold_b controlnet_input_images
    .ok ⟨results.map env.encode_np, "Success",
      results.map (fun _ => Effect.annotatorCall controlnet_module) ++
        unload_effects controlnet_module⟩

/-- An HTTP route: method and path. -/
structure Route where
  method : String
  path : String
deriving DecidableEq

/-- The route added by the `Api` subclass that replaces the host `api.Api`
(lines 162-181): `add_api_route("/controlnet/txt2img", ..., methods=["POST"])`. -/
def api_subclass_routes : List Route :=
  [⟨"POST", "/controlnet/txt2img"⟩]

/-- The routes registered by `controlnet_api` (lines 265-266, 396, 402),
which `script_callbacks.on_app_started` runs at application startup
(line 471). -/
def controlnet_api_routes : List Route :=
  [⟨"POST", "/controlnet/img2img"⟩, ⟨"GET", "/controlnet/model_list"⟩,
   ⟨"POST", "/controlnet/detect"⟩]

/-- Every ControlNet route the module wires. -/
def all_controlnet_routes : List Route :=
  api_subclass_routes ++ controlnet_api_routes

/-- A concrete sample image: 2x2 pixels, one value above 255. -/
def wImg : PILImage := ⟨⟨[2, 2], [1, 2, 3, 300]⟩⟩

/-- A concrete environment: decoding always yields `wImg`, encoding is the
constant string "enc", every annotator returns its input image. -/
def wEnv : Env :=
  ⟨fun _ => some wImg, fun _ => "enc", fun i _ _ _ => i, fun i _ => i,
   fun i _ _ _ => i, fun i _ _ => i, fun i _ _ _ => i, fun i _ _ _ _ => i,
   fun i _ _ => i, fun i _ => i, fun i _ => i, 3⟩

/-- An environment in which decoding always fails. -/
def failEnv : Env := { wEnv with open_b64 := fun _ => none }

/-- A store holding only scripts titled "Other". -/
def noCnStore : ScriptStore := fun _ => ⟨"Other", 0, 0⟩

/-- A store holding only scripts titled "ControlNet". -/
def cnStore : ScriptStore := fun _ => ⟨"ControlNet", 7, 9⟩

/-- A txt2img request whose deprecated flat fields supply a one-element
image list, a one-element mask list and a module name. -/
def deprecated_request_sample : Txt2ImgRequest Unit :=
  ⟨(), [],
    { input_image := some ["IMG"], mask := some ["MSK"], module := some "canny" }⟩

/-!  Theorems.  -/

@[simp] theorem except_bind_ok {ε α β : Type} (a : α) (f : α → Except ε β) :
    (Except.ok a : Except ε α) >>= f = f a := rfl

@[simp] theorem except_bind_error {ε α β : Type} (e : ε) (f : α → Except ε β) :
    (Except.error e : Except ε α) >>= f = Except.error e := rfl

instance exceptDecEq {ε α : Type} [DecidableEq ε] [DecidableEq α] :
    DecidableEq (Except ε α) := fun x y =>
  match x, y with
  | .ok a, .ok b =>
    if h : a = b then .isTrue (by rw [h]) else .isFalse (by simp [h])
  | .error e, .error f =>
    if h : e = f then .isTrue (by rw [h]) else .isFalse (by simp [h])
  | .ok _, .error _ => .isFalse (by simp)
  | .error _, .ok _ => .isFalse (by simp)

theorem except_bind_eq_ok {ε α β : Type} {e : Except ε α} {f : α → Except ε β}
    {b : β} (h : e >>= f = .ok b) : ∃ a, e = .ok a ∧ f a = .ok b := by
  cases e with
  | ok a => exact ⟨a, rfl, h⟩
  | error err => simp at h

/-- C7: the module wires exactly four ControlNet HTTP routes — the `Api`
subclass that replaces the host class adds POST /controlnet/txt2img, and the
startup callback registers POST /controlnet/img2img, GET
/controlnet/model_list and POST /controlnet/detect. -/
theorem controlnet_routes_exactly_four :
    api_subclass_routes = [⟨"POST", "/controlnet/txt2img"⟩] ∧
    controlnet_api_routes =
      [⟨"POST", "/controlnet/img2img"⟩, ⟨"GET", "/controlnet/model_list"⟩,
       ⟨"POST", "/controlnet/detect"⟩] ∧
    all_controlnet_routes =
      [⟨"POST", "/controlnet/txt2img"⟩, ⟨"POST", "/controlnet/img2img"⟩,
       ⟨"GET", "/controlnet/model_list"⟩, ⟨"POST", "/controlnet/detect"⟩] ∧
    all_controlnet_routes.length = 4 :=
  ⟨rfl, rfl, rfl, rfl⟩

/-- C5: when every deprecated flat `controlnet_*` field is `None`,
`nest_deprecated_cn_fields` keeps `controlnet_units` and every non-deprecated
field unchanged; only the deprecated fields (absent from the result type) are
removed. -/
theorem nest_deprecated_cn_fields_frame {β : Type} (base : β)
    (units : List ControlNetUnitRequest) (d : DeprecatedCnFields)
    (h : all_deprecated_none d = true) :
    nest_deprecated_cn_fields ⟨base, units, d⟩ = ⟨base, units⟩ := by
  simp [nest_deprecated_cn_fields, h]

theorem nest_deprecated_cn_fields_frame_witness :
    nest_deprecated_cn_fields
      (⟨(), [⟨"i", "m", "canny", "None", 1, "fit", false, 64, 64, 64, 1, true⟩],
        {}⟩ : Txt2ImgRequest Unit) =
      ⟨(), [⟨"i", "m", "canny", "None", 1, "fit", false, 64, 64, 64, 1, true⟩]⟩ :=
  nest_deprecated_cn_fields_frame ()
    [⟨"i", "m", "canny", "None", 1, "fit", false, 64, 64, 64, 1, true⟩] {}
    (by decide)

/-- C2 (code bug): on a request whose deprecated `controlnet_input_image`
and `controlnet_mask` are the non-empty lists ["IMG"] and ["MSK"], the unit
inserted at position 0 carries `input_image = ""` and `mask = ""` — not the
lists' first elements — because line 217 tests the constant default `[]`
instead of the provided value.  The other deprecated fields are translated
as the claim states. -/
theorem nest_deprecated_cn_fields_discards_images :
    (nest_deprecated_cn_fields deprecated_request_sample).controlnet_units =
      [⟨"", "", "canny", "None", 1, "Scale to Fit (Inner Fit)", false, 64, 64,
        64, 1, true⟩] := by
  decide

/-- C8: the detect endpoint answers `{"images": [], "info": "Module not
available"}` for a module outside the available nine, and `{"images": [],
"info": "No image selected"}` for an available module with no input images;
in both cases no annotator runs (the effect list is empty). -/
theorem detect_rejections (env : Env) (m : String) (imgs : List String)
    (res : Int) (ta tb : ℚ) :
    (m ∉ available_modules →
      detect env m imgs res ta tb = .ok ⟨[], "Module not available", []⟩) ∧
    (m ∈ available_modules → imgs = [] →
      detect env m imgs res ta tb = .ok ⟨[], "No image selected", []⟩) := by
  constructor
  · intro h
    simp [detect, h]
  · intro h h2
    subst h2
    simp [detect, h]

theorem detect_rejections_witness :
    detect wEnv "foo" ["a"] 512 64 64 = .ok ⟨[], "Module not available", []⟩ ∧
    detect wEnv "canny" [] 512 64 64 = .ok ⟨[], "No image selected", []⟩ :=
  ⟨(detect_rejections wEnv "foo" ["a"] 512 64 64).1 (by decide),
   (detect_rejections wEnv "canny" [] 512 64 64).2 (by decide) rfl⟩

theorem strip_data_header_error (s : String) (e : PyErr)
    (h : strip_data_header s = .error e) : e = .indexError := by
  unfold strip_data_header at h
  split at h
  · cases h
    rfl
  · split at h
    · cases h
      rfl
    · cases h

theorem effective_encoding_error (s : String) (e : PyErr)
    (h : effective_encoding s = .error e) : e = .indexError := by
  unfold effective_encoding at h
  cases hs : py_startswith s "data:image/" with
  | true =>
    simp only [hs, if_true] at h
    exact strip_data_header_error s e h
  | false =>
    simp [hs] at h

/-- C10: `decode_base64_to_image` passes the input unchanged to the decoder
unless it starts with "data:image/", in which case the URI header is first
stripped; once an effective encoding exists, the function returns the opened
image when decoding succeeds, and it raises `HTTPException(500, "Invalid
encoded image")` exactly when base64 decoding or image opening fails (a
failure of the header stripping itself instead propagates an IndexError). -/
theorem decode_base64_to_image_spec (env : Env) (s : String) :
    (py_startswith s "data:image/" = false → effective_encoding s = .ok s) ∧
    (py_startswith s "data:image/" = true →
      effective_encoding s = strip_data_header s) ∧
    (∀ r, effective_encoding s = .ok r →
      decode_base64_to_image env s =
        match env.open_b64 r with
        | some image => .ok image
        | none => .error (.httpException 500 "Invalid encoded image")) ∧
    (decode_base64_to_image env s =
        .error (PyErr.httpException 500 "Invalid encoded image") ↔
      ∃ r, effective_encoding s = .ok r ∧ env.open_b64 r = none) := by
  refine ⟨fun h => by simp [effective_encoding, h],
    fun h => by simp [effective_encoding, h], fun r hr => ?_, ?_⟩
  · unfold decode_base64_to_image
    rw [hr]
    rfl
  · unfold decode_base64_to_image
    cases heff : effective_encoding s with
    | ok r =>
      simp only [except_bind_ok]
      cases ho : env.open_b64 r with
      | some image =>
        simp only [ho]
        constructor
        · intro h
          cases h
        · rintro ⟨r2, hr2, ho2⟩
          simp only [Except.ok.injEq] at hr2
          subst hr2
          rw [ho] at ho2
          simp at ho2
      | none =>
        simp only [ho]
        constructor
        · intro _
          exact ⟨r, rfl, ho⟩
        · intro _
          trivial
    | error e =>
      simp only [except_bind_error]
      constructor
      · intro h
        cases h
        exact absurd (effective_encoding_error s _ heff) (by simp)
      · rintro ⟨r2, hr2, _⟩
        cases hr2

theorem decode_base64_to_image_spec_witness :
    decode_base64_to_image wEnv "data:image/png;base64,QUJD" = .ok wImg ∧
    decode_base64_to_image failEnv "plain" =
      .error (PyErr.httpException 500 "Invalid encoded image") :=
  ⟨(decode_base64_to_image_spec wEnv "data:image/png;base64,QUJD").2.2.1
      "QUJD" (by decide),
   (decode_base64_to_image_spec failEnv "plain").2.2.2.mpr
      ⟨"plain", by decide, rfl⟩⟩

/-- C6: under the precondition that `controlnet_input_image` is non-empty,
the img2img endpoint's first-element accesses are in bounds — no
`IndexError` is possible (the mask access is guarded by the `== []` check,
so it needs no extra precondition) — and when `controlnet_mask` is empty the
handler substitutes the 512x512x3 zero array for the mask. -/
theorem img2img_cn_arrays_safe (env : Env) (imgs masks : List String)
    (h : imgs ≠ []) :
    img2img_cn_arrays env imgs masks ≠ .error PyErr.indexError ∧
    (∀ r, img2img_cn_arrays env imgs masks = .ok r → masks = [] →
      r.2 = astype_uint8 (np_zeros [512, 512, 3])) := by
  obtain ⟨s, rest, rfl⟩ : ∃ s rest, imgs = s :: rest := by
    cases imgs with
    | nil => exact absurd rfl h
    | cons s rest => exact ⟨s, rest, rfl⟩
  unfold img2img_cn_arrays
  simp only [List.get?]
  simp only [except_bind_ok]
  cases ho : env.open_b64 s with
  | none =>
    simp only [ho, except_bind_error]
    exact ⟨by simp, fun r hr => by cases hr⟩
  | some i =>
    simp only [ho, except_bind_ok]
    by_cases hm : masks = []
    · subst hm
      simp only [if_pos rfl, except_bind_ok]
      exact ⟨by simp, fun r hr hm2 => by cases hr; rfl⟩
    · obtain ⟨t, mrest, rfl⟩ : ∃ t mrest, masks = t :: mrest := by
        cases masks with
        | nil => exact absurd rfl hm
        | cons t mrest => exact ⟨t, mrest, rfl⟩
      simp only [if_neg hm, List.get?, except_bind_ok]
      cases ht : env.open_b64 t with
      | none =>
        simp only [ht, except_bind_error]
        exact ⟨by simp, fun r hr => by cases hr⟩
      | some j =>
        simp only [ht, except_bind_ok]
        exact ⟨by simp, fun r hr hm2 => absurd hm2 hm⟩

theorem img2img_cn_arrays_safe_witness :
    img2img_cn_arrays wEnv ["a"] [] ≠ .error PyErr.indexError ∧
    (∀ r, img2img_cn_arrays wEnv ["a"] [] = .ok r → ([] : List String) = [] →
      r.2 = astype_uint8 (np_zeros [512, 512, 3])) :=
  img2img_cn_arrays_safe wEnv ["a"] [] (by decide)

theorem detect_apply_available (env : Env) (m : String) (img : NpArray)
    (res : Int) (ta tb : ℚ) (hm : m ∈ available_modules) :
    ∃ v, detect_apply env m img res ta tb = some v := by
  simp only [available_modules, List.mem_cons, List.mem_singleton,
    List.not_mem_nil, or_false] at hm
  rcases hm with h | h | h | h | h | h | h | h | h <;> subst h <;>
    exact ⟨_, rfl⟩

theorem detect_loop_ok (env : Env) (m : String) (res : Int) (ta tb : ℚ)
    (imgs : List String) (hm : m ∈ available_modules)
    (hdec : ∀ s ∈ imgs, ∃ i, detect_decode env s = .ok i) :
    ∃ results, detect_loop env m res ta tb imgs = .ok results ∧
      List.Forall₂ (fun s rimg => ∃ i, detect_decode env s = .ok i ∧
        detect_apply env m i res ta tb = some rimg) imgs results := by
  induction imgs with
  | nil => exact ⟨[], rfl, List.Forall₂.nil⟩
  | cons s rest ih =>
    obtain ⟨i, hi⟩ := hdec s (by simp)
    obtain ⟨results, hres, hall⟩ := ih (fun t ht => hdec t (by simp [ht]))
    obtain ⟨v, hv⟩ := detect_apply_available env m i res ta tb hm
    refine ⟨v :: results, ?_, List.Forall₂.cons ⟨i, hi, hv⟩ hall⟩
    unfold detect_loop
    simp only [hi, except_bind_ok, hres, hv]

theorem processImages_not_mem_unload (m : String) :
    Effect.processImagesCall ∉ unload_effects m := by
  unfold unload_effects
  repeat' split
  all_goals simp

/-- C1: for an available module and a non-empty, decodable input list, the
detect endpoint returns one processed image per input, in input order, each
obtained by applying the module's annotator to the decoded input, with info
"Success"; `process_images` is never invoked on this path. -/
theorem detect_success_spec (env : Env) (m : String) (imgs : List String)
    (res : Int) (ta tb : ℚ) (hm : m ∈ available_modules) (hne : imgs ≠ [])
    (hdec : ∀ s ∈ imgs, ∃ i, detect_decode env s = .ok i) :
    ∃ r results,
      detect env m imgs res ta tb = .ok r ∧
      detect_loop env m res ta tb imgs = .ok results ∧
      r.info = "Success" ∧
      r.images = results.map env.encode_np ∧
      r.images.length = imgs.length ∧
      List.Forall₂ (fun s rimg => ∃ i, detect_decode env s = .ok i ∧
        detect_apply env m i res ta tb = some rimg) imgs results ∧
      Effect.processImagesCall ∉ r.effects := by
  obtain ⟨results, hres, hall⟩ := detect_loop_ok env m res ta tb imgs hm hdec
  refine ⟨⟨results.map env.encode_np, "Success",
    results.map (fun _ => Effect.annotatorCall m) ++ unload_effects m⟩,
    results, ?_, hres, rfl, rfl, ?_, hall, ?_⟩
  · unfold detect
    rw [if_neg (by simp [hm]), if_neg (by simp [hne]), hres]
    rfl
  · simp [hall.length_eq]
  · intro hmem
    rcases List.mem_append.mp hmem with hmem | hmem
    · obtain ⟨x, _, hx⟩ := List.mem_map.mp hmem
      cases hx
    · exact processImages_not_mem_unload m hmem

theorem detect_success_spec_witness :
    ∃ r results,
      detect wEnv "canny" ["a"] 512 64 64 = .ok r ∧
      detect_loop wEnv "canny" 512 64 64 ["a"] = .ok results ∧
      r.info = "Success" ∧
      r.images = results.map wEnv.encode_np ∧
      r.images.length = (["a"] : List String).length ∧
      List.Forall₂ (fun s rimg => ∃ i, detect_decode wEnv s = .ok i ∧
        detect_apply wEnv "canny" i 512 64 64 = some rimg) ["a"] results ∧
      Effect.processImagesCall ∉ r.effects :=
  detect_success_spec wEnv "canny" ["a"] 512 64 64 (by decide) (by decide)
    (fun s _ => ⟨astype_uint8 wImg.toNp, rfl⟩)

/-- C4: `create_processing_unit_args` yields exactly the fourteen-entry
argument list, with `enabled = True`, `scribble_mode = False`,
`rgbbgr_mode = False` at their fixed positions and the unit's fields at
theirs; the image entry is `None` exactly when `input_image` is the empty
string, and the mask entry is the 1x1x1 zero array when `mask` is empty and
the decoded mask otherwise (so, whenever decoding never produces that
placeholder array, exactly when `mask` is empty). -/
theorem create_processing_unit_args_shape (env : Env)
    (u : ControlNetUnitRequest) (a : List Arg)
    (hok : create_processing_unit_args env u = .ok a)
    (hmask : u.mask ≠ "" → ∀ b, to_base64_nparray env u.mask = .ok b →
      b ≠ np_zero_1x1x1) :
    ∃ image mask,
      a = [Arg.bool true, Arg.str u.module, Arg.str u.model, Arg.rat u.weight,
        Arg.imageDict image mask, Arg.bool false, Arg.str u.resize_mode,
        Arg.bool false, Arg.bool u.lowvram, Arg.int u.processor_res,
        Arg.rat u.threshold_a, Arg.rat u.threshold_b, Arg.rat u.guidance,
        Arg.bool u.guessmode] ∧
      (image = none ↔ u.input_image = "") ∧
      (u.mask = "" → mask = np_zero_1x1x1) ∧
      (u.mask ≠ "" → to_base64_nparray env u.mask = .ok mask) ∧
      (mask = np_zero_1x1x1 ↔ u.mask = "") := by
  unfold create_processing_unit_args at hok
  obtain ⟨image, h1, hok⟩ := except_bind_eq_ok hok
  obtain ⟨mask, h2, hok⟩ := except_bind_eq_ok hok
  simp only [Except.ok.injEq] at hok
  subst hok
  refine ⟨image, mask, rfl, ?_, ?_, ?_, ?_⟩
  · by_cases hin : u.input_image = ""
    · rw [if_neg (by simp [hin])] at h1
      cases h1
      simp [hin]
    · rw [if_pos hin] at h1
      obtain ⟨b, _, hb⟩ := except_bind_eq_ok h1
      cases hb
      simp [hin]
  · intro hmk
    rw [if_neg (by simp [hmk])] at h2
    cases h2
    rfl
  · intro hmk
    rw [if_pos hmk] at h2
    exact h2
  · constructor
    · intro hzero
      by_cases hmk : u.mask = ""
      · exact hmk
      · rw [if_pos hmk] at h2
        exact absurd hzero (hmask hmk mask h2)
    · intro hmk
      rw [if_neg (by simp [hmk])] at h2
      cases h2
      rfl

theorem create_processing_unit_args_shape_witness :
    ∃ image mask,
      ([Arg.bool true, Arg.str "none", Arg.str "None", Arg.rat 1,
        Arg.imageDict none np_zero_1x1x1, Arg.bool false,
        Arg.str "Scale to Fit (Inner Fit)", Arg.bool false, Arg.bool false,
        Arg.int 64, Arg.rat 64, Arg.rat 64, Arg.rat 1, Arg.bool true] :
          List Arg) =
        [Arg.bool true, Arg.str "none", Arg.str "None", Arg.rat 1,
          Arg.imageDict image mask, Arg.bool false,
          Arg.str "Scale to Fit (Inner Fit)", Arg.bool false, Arg.bool false,
          Arg.int 64, Arg.rat 64, Arg.rat 64, Arg.rat 1, Arg.bool true] ∧
      (image = none ↔ ("" : String) = "") ∧
      (("" : String) = "" → mask = np_zero_1x1x1) ∧
      (("" : String) ≠ "" → to_base64_nparray wEnv "" = .ok mask) ∧
      (mask = np_zero_1x1x1 ↔ ("" : String) = "") := by
  have h := create_processing_unit_args_shape wEnv {}
    [Arg.bool true, Arg.str "none", Arg.str "None", Arg.rat 1,
      Arg.imageDict none np_zero_1x1x1, Arg.bool false,
      Arg.str "Scale to Fit (Inner Fit)", Arg.bool false, Arg.bool false,
      Arg.int 64, Arg.rat 64, Arg.rat 64, Arg.rat 1, Arg.bool true]
    (by decide) (fun hne => absurd rfl hne)
  exact h

theorem create_processing_unit_args_length (env : Env)
    (u : ControlNetUnitRequest) (a : List Arg)
    (h : create_processing_unit_args env u = .ok a) : a.length = 14 := by
  unfold create_processing_unit_args at h
  obtain ⟨image, h1, h⟩ := except_bind_eq_ok h
  obtain ⟨mask, h2, h⟩ := except_bind_eq_ok h
  cases h
  rfl

theorem build_punit_args_ok (env : Env) (units : List ControlNetUnitRequest)
    (hok : ∀ u ∈ units, ∃ a, create_processing_unit_args env u = .ok a) :
    ∃ chunks, List.Forall₂
        (fun u a => create_processing_unit_args env u = .ok a) units chunks ∧
      build_punit_args env units = .ok chunks.flatten := by
  induction units with
  | nil => exact ⟨[], List.Forall₂.nil, rfl⟩
  | cons u rest ih =>
    obtain ⟨a, ha⟩ := hok u (by simp)
    obtain ⟨chunks, hall, hbuild⟩ := ih (fun v hv => hok v (by simp [hv]))
    refine ⟨a :: chunks, List.Forall₂.cons ha hall, ?_⟩
    unfold build_punit_args
    simp only [ha, except_bind_ok, hbuild, List.flatten_cons]

theorem chunks_join_length (env : Env) (units : List ControlNetUnitRequest)
    (chunks : List (List Arg))
    (hall : List.Forall₂ (fun u a => create_processing_unit_args env u = .ok a)
      units chunks) :
    chunks.flatten.length = 14 * units.length := by
  induction hall with
  | nil => rfl
  | cons h _ ih =>
    simp only [List.flatten_cons, List.length_append, List.length_cons, ih,
      create_processing_unit_args_length _ _ _ h]
    ring

theorem py_list_index_of_mem (x : String) (l : List String) (h : x ∈ l) :
    ∃ i, py_list_index x l = some i := by
  induction l with
  | nil => cases h
  | cons y ys ih =>
    by_cases hxy : y = x
    · exact ⟨0, by simp [py_list_index, hxy]⟩
    · have hx : x ∈ ys := by
        rcases List.mem_cons.mp h with h2 | h2
        · exact absurd h2.symm hxy
        · exact h2
      obtain ⟨i, hi⟩ := ih hx
      exact ⟨i + 1, by simp [py_list_index, hxy, hi]⟩

theorem py_list_index_of_not_mem (x : String) (l : List String) (h : x ∉ l) :
    py_list_index x l = none := by
  induction l with
  | nil => rfl
  | cons y ys ih =>
    have hxy : ¬ y = x := fun h2 => h (by simp [h2])
    have hx : x ∉ ys := fun h2 => h (by simp [h2])
    simp [py_list_index, hxy, ih hx]

/-- C3: with a 'controlnet'-titled script among the alwayson scripts and
every unit's arguments building successfully, `create_cn_script_runner`
returns the argument list `False :: (14 args per unit, in input order)` of
length `1 + 14*n`, and a runner holding exactly one script, whose
`args_from` is 0 and whose `args_to` is `1 + 14*n`. -/
theorem create_cn_script_runner_args (env : Env) (store : ScriptStore)
    (fresh : Nat) (runner : ScriptRunner) (units : List ControlNetUnitRequest)
    (hcn : "controlnet" ∈ script_titles store runner)
    (hok : ∀ u ∈ units, ∃ a, create_processing_unit_args env u = .ok a) :
    ∃ store2 runner2 chunks,
      List.Forall₂ (fun u a => create_processing_unit_args env u = .ok a)
        units chunks ∧
      create_cn_script_runner env store fresh runner units =
        .ok (store2, some runner2, Arg.bool false :: chunks.flatten) ∧
      (Arg.bool false :: chunks.flatten).length = 1 + 14 * units.length ∧
      runner2.alwayson_scripts = [fresh] ∧
      (store2 fresh).args_from = 0 ∧
      (store2 fresh).args_to = 1 + 14 * units.length := by
  obtain ⟨chunks, hall, hbuild⟩ := build_punit_args_ok env units hok
  obtain ⟨idx, hidx⟩ := py_list_index_of_mem "controlnet"
    (script_titles store runner) hcn
  have hlen : chunks.flatten.length = 14 * units.length :=
    chunks_join_length env units chunks hall
  refine ⟨fun i => if i = fresh then
      ⟨(store (runner.alwayson_scripts.getD idx 0)).title, 0,
        (Arg.bool false :: chunks.flatten).length⟩
    else store i,
    ⟨[fresh]⟩, chunks, hall, ?_, ?_, rfl, ?_, ?_⟩
  · unfold create_cn_script_runner
    simp only [hbuild, except_bind_ok, hidx]
  · simp only [List.length_cons, hlen]
    omega
  · simp
  · simp [hlen]
    omega

theorem create_cn_script_runner_args_witness :
    ∃ store2 runner2 chunks,
      List.Forall₂
        (fun u a => create_processing_unit_args wEnv u = .ok a)
        [{}] chunks ∧
      create_cn_script_runner wEnv cnStore 5 ⟨[0]⟩ [{}] =
        .ok (store2, some runner2, Arg.bool false :: chunks.flatten) ∧
      (Arg.bool false :: chunks.flatten).length =
        1 + 14 * ([{}] : List ControlNetUnitRequest).length ∧
      runner2.alwayson_scripts = [5] ∧
      (store2 5).args_from = 0 ∧
      (store2 5).args_to = 1 + 14 * ([{}] : List ControlNetUnitRequest).length :=
  create_cn_script_runner_args wEnv cnStore 5 ⟨[0]⟩ [{}] (by decide)
    (fun u hu => by
      rw [List.mem_singleton.mp hu]
      exact ⟨_, rfl⟩)

/-- C9 counterexample: with no script titled 'controlnet' among the alwayson
scripts, a unit whose input image does not decode makes
`create_cn_script_runner` raise `HTTPException` — the per-unit arguments are
built before the title lookup, and `HTTPException` is not the `ValueError`
the function catches — contradicting "returns (None, []) instead of
raising". -/
theorem create_cn_script_runner_raise_counterexample :
    "controlnet" ∉ script_titles noCnStore ⟨[0]⟩ ∧
    create_cn_script_runner failEnv noCnStore 1 ⟨[0]⟩ [{ input_image := "x" }] =
      .error (PyErr.httpException 500 "Invalid encoded image") := by
  constructor
  · decide
  · rfl

/-- C9 (amended): `create_cn_script_runner` never mutates its script_runner
argument — on every successful call the store entries of the original
runner's scripts are unchanged (the returned runner and its single script
are fresh copies) — and when no script titled 'controlnet' is present and
every unit's arguments build without exception, it returns (None, []); an
exception raised while building the unit arguments (e.g. an undecodable
input image) propagates instead of being converted to (None, []). -/
theorem create_cn_script_runner_no_mutation (env : Env) (store : ScriptStore)
    (fresh : Nat) (runner : ScriptRunner) (units : List ControlNetUnitRequest)
    (hfresh : fresh ∉ runner.alwayson_scripts) :
    (∀ store2 r2 args,
      create_cn_script_runner env store fresh runner units =
        .ok (store2, r2, args) →
      ∀ i ∈ runner.alwayson_scripts, store2 i = store i) ∧
    ("controlnet" ∉ script_titles store runner →
      (∀ u ∈ units, ∃ a, create_processing_unit_args env u = .ok a) →
      create_cn_script_runner env store fresh runner units =
        .ok (store, none, [])) := by
  constructor
  · intro store2 r2 args h i hi
    unfold create_cn_script_runner at h
    cases hbuild : build_punit_args env units with
    | error e =>
      rw [hbuild] at h
      simp at h
    | ok rest =>
      rw [hbuild] at h
      simp only [except_bind_ok] at h
      cases hidx : py_list_index "controlnet" (script_titles store runner) with
      | none =>
        simp only [hidx] at h
        simp only [Except.ok.injEq, Prod.mk.injEq] at h
        rw [← h.1]
      | some idx =>
        simp only [hidx] at h
        simp only [Except.ok.injEq, Prod.mk.injEq] at h
        rw [← h.1]
        refine if_neg (fun he => hfresh ?_)
        rw [← he]
        exact hi
  · intro hcn hok
    obtain ⟨chunks, hall, hbuild⟩ := build_punit_args_ok env units hok
    unfold create_cn_script_runner
    simp only [hbuild, except_bind_ok,
      py_list_index_of_not_mem "controlnet" (script_titles store runner) hcn]

theorem create_cn_script_runner_no_mutation_witness :
    (∀ store2 r2 args,
      create_cn_script_runner wEnv noCnStore 3 ⟨[0]⟩ [] =
        .ok (store2, r2, args) →
      ∀ i ∈ (⟨[0]⟩ : ScriptRunner).alwayson_scripts, store2 i = noCnStore i) ∧
    ("controlnet" ∉ script_titles noCnStore ⟨[0]⟩ →
      (∀ u ∈ ([] : List ControlNetUnitRequest), ∃ a,
        create_processing_unit_args wEnv u = .ok a) →
      create_cn_script_runner wEnv noCnStore 3 ⟨[0]⟩ [] =
        .ok (noCnStore, none, [])) :=
  create_cn_script_runner_no_mutation wEnv noCnStore 3 ⟨[0]⟩ [] (by decide)

end ControlNetApi
